import Mathlib

/-!
Verification of the bibliometric research pipeline in
`investor_intel_bot.py`.

The development shallowly embeds the program: JSON paper records become
structures with `Option` fields (a missing key is `none`), Python dict /
`collections.Counter` insertion-order semantics are modelled by
association lists built in encounter order, `Counter.most_common(5)` is a
stable descending sort (equivalent to `heapq.nlargest`) followed by
`take 5`, and fallible code returns `Except`.  External collaborators —
the HTTP response, the chart backend and the completion service — are
passed in as explicit values or functions, matching the spec's "thin I/O
wrapper" treatment.
-/

/-- One institution object inside an authorship: the code reads
`i.get("display_name")`, which is `None` when the key is missing. -/
structure Institution where
  display_name : Option String
  deriving DecidableEq, Repr

/-- The author object of an authorship.  Python tests the dict for
truthiness (`if author.get("author")`), so we track whether the dict has
a `display_name` and how many other keys it carries; the dict is truthy
iff it is non-empty. -/
structure AuthorObj where
  display_name : Option String
  otherKeys : Nat
  deriving DecidableEq, Repr

/-- Truthiness of the Python author dict: non-empty. -/
def AuthorObj.truthy (a : AuthorObj) : Bool :=
  a.display_name.isSome || a.otherKeys ≠ 0

/-- One entry of a paper's `authorships` list. -/
structure Authorship where
  author : Option AuthorObj
  institutions : List Institution
  deriving DecidableEq, Repr

/-- One paper record of the OpenAlex `results` array. -/
structure Paper where
  title : Option String
  cited_by_count : Option Nat
  publication_year : Option Int
  doi : Option String
  authorships : List Authorship
  deriving DecidableEq, Repr

/-- The parsed OpenAlex response body: `results` plus `meta.count`
(`none` models a missing `meta` or a missing `count`). -/
structure ApiResponse where
  results : List Paper
  meta_count : Option Nat
  deriving DecidableEq, Repr

/-- An HTTP response as seen by `query_openalex`: status code and the
parsed JSON body. -/
structure HttpResponse where
  status : Nat
  body : ApiResponse
  deriving DecidableEq, Repr

/-- Python exceptions raised (or propagated) by the program.  The source
only ever constructs `exception` (generic `Exception(msg)`) and, at the
tuple-unpacking of an empty `zip`, `valueError`.  The `renderError`
constructor is modelled from the spec's words — a `RenderError` naming
the failing chart identifier — so that we can ask whether the code ever
produces one. -/
inductive PyError where
  | exception (msg : String)
  | valueError (msg : String)
  | renderError (chart : String) (msg : String)
  deriving DecidableEq, Repr

/-- Python `str(e)` on the caught exception, used by `ResearchBot.run`
to build the `"Error: ..."` tuple. -/
def errMessage : PyError → String
  | .exception m => m
  | .valueError m => m
  | .renderError _ m => m

/-- One of the `top_papers` dictionaries: missing title/doi default to
`""`, missing citations to `0`; a missing year's default is the empty
string, modelled by `none`. -/
structure TopPaper where
  title : String
  citations : Nat
  year : Option Int
  doi : String
  deriving DecidableEq, Repr

/-- The `ResearchStats` dataclass.  `yearly_trends` is the sorted dict
as an ascending association list; the two top lists keep the
`(name, count)` pairs where a name read from a missing `display_name`
key is `none`. -/
structure ResearchStats where
  total_papers : Nat
  top_papers : List TopPaper
  yearly_trends : List (Int × Nat)
  top_institutions : List (Option String × Nat)
  top_authors : List (Option String × Nat)
  charts : Option (List (String × String))
  deriving DecidableEq, Repr

/-- Data handed to the plotting backend for one chart. -/
inductive ChartData where
  | line (xs : List Int) (ys : List Nat)
  | hbar (labels : List (Option String)) (counts : List Nat)
  deriving DecidableEq, Repr

/-- The LangGraph pipeline state (`State` pydantic model). -/
structure PipelineState where
  concept : String
  api_response : Option ApiResponse
  stats : Option ResearchStats
  result : Option String
  investment_insights : Option String
  charts : Option (List (String × String))

/-- The external collaborators of one run: the literature-API response
the single `requests.get` yields, the chart rendering backend, and the
completion service (system message and user prompt to completion). -/
structure Env where
  response : HttpResponse
  render : String → ChartData → Except PyError String
  llm : String → String → Except PyError String

/- Counter / most_common machinery ------------------------------------ -/

/-- Add one occurrence of `x` to a `collections.Counter` represented as
an association list in key-insertion order: bump the existing key or
append a fresh one at the end. -/
def bump {α : Type} [DecidableEq α] (x : α) : List (α × Nat) → List (α × Nat)
  | [] => [(x, 1)]
  | (y, c) :: ys => if x = y then (y, c + 1) :: ys else (y, c) :: bump x ys

/-- `collections.Counter(l)`: count the list in iteration order, keys
ordered by first encounter. -/
def countList {α : Type} [DecidableEq α] (l : List α) : List (α × Nat) :=
  l.foldl (fun acc x => bump x acc) []

/-- Lookup of a key in an association list of counts. -/
def lookupC {α : Type} [DecidableEq α] : List (α × Nat) → α → Option Nat
  | [], _ => none
  | (y, c) :: ys, a => if a = y then some c else lookupC ys a

/-- Index of the first occurrence of `a` (length of the list when `a`
is absent). -/
def firstIdx {α : Type} [DecidableEq α] (a : α) : List α → Nat
  | [] => 0
  | x :: xs => if x = a then 0 else firstIdx a xs + 1

/-- The list of first occurrences, in order of first appearance. -/
def firstOccs {α : Type} [DecidableEq α] : List α → List α
  | [] => []
  | x :: xs => x :: (firstOccs xs).filter (fun y => decide (y ≠ x))

/-- Stable descending insertion by count: the new element — which comes
earlier in the original enumeration — is placed before every element of
equal count, as `heapq.nlargest` does. -/
def insertDesc {α : Type} (x : α × Nat) : List (α × Nat) → List (α × Nat)
  | [] => [x]
  | y :: ys => if y.2 ≤ x.2 then x :: y :: ys else y :: insertDesc x ys

/-- Stable sort by descending count. -/
def sortCountDesc {α : Type} : List (α × Nat) → List (α × Nat)
  | [] => []
  | x :: xs => insertDesc x (sortCountDesc xs)

/-- `Counter(l).most_common(n)`: the `n` largest counts, ties broken by
first-encounter order. -/
def most_common {α : Type} [DecidableEq α] (n : Nat) (l : List α) : List (α × Nat) :=
  (sortCountDesc (countList l)).take n

/-- Ascending insertion by key (years are distinct Counter keys, so
stability is moot); models Python `sorted` on the dict items. -/
def insertAsc (x : Int × Nat) : List (Int × Nat) → List (Int × Nat)
  | [] => [x]
  | y :: ys => if x.1 ≤ y.1 then x :: y :: ys else y :: insertAsc x ys

/-- `dict(sorted(counter.items()))` as an ascending association list. -/
def sortYearAsc : List (Int × Nat) → List (Int × Nat)
  | [] => []
  | x :: xs => insertAsc x (sortYearAsc xs)

/- The source functions ------------------------------------------------ -/

/-- `query_openalex` (lines 51-64): a single request; a non-200 status
raises `Exception(f"OpenAlex API request failed with status {code}")`,
otherwise the parsed JSON body is returned unchanged.  The one outbound
call is the `response` handed in. -/
def query_openalex (resp : HttpResponse) : Except PyError ApiResponse :=
  if resp.status ≠ 200 then
    .error (.exception ("OpenAlex API request failed with status " ++ toString resp.status))
  else
    .ok resp.body

/-- The year list of line 83: `paper.get("publication_year")` for each
record, kept only when truthy — so a missing year and a zero year are
both dropped. -/
def truthyYears (results : List Paper) : List Int :=
  results.filterMap (fun p =>
    match p.publication_year with
    | some y => if y = 0 then none else some y
    | none => none)

/-- The flat institution-occurrence list of lines 87-92: for every
record, for every authorship, if its `institutions` value is truthy
(non-empty list), extend with every `display_name`. -/
def institutionOccurrences (results : List Paper) : List (Option String) :=
  results.flatMap (fun p =>
    p.authorships.flatMap (fun a =>
      if a.institutions.isEmpty then []
      else a.institutions.map (fun i => i.display_name)))

/-- The flat author-occurrence list of lines 93-95: for every record,
for every authorship, if the author dict is present and truthy, append
`author["author"].get("display_name")` (which may itself be `none`). -/
def authorOccurrences (results : List Paper) : List (Option String) :=
  results.flatMap (fun p =>
    p.authorships.filterMap (fun a =>
      match a.author with
      | some ao => if ao.truthy then some ao.display_name else none
      | none => none))

/-- One entry of the `top_papers` comprehension (lines 72-80). -/
def toTopPaper (p : Paper) : TopPaper where
  title := p.title.getD ""
  citations := p.cited_by_count.getD 0
  year := p.publication_year
  doi := p.doi.getD ""

/-- The pure aggregation part of `analyze_research_data` (lines 68-106):
everything up to the construction of the `ResearchStats` dataclass,
before charts are attached. -/
def computeStats (resp : ApiResponse) : ResearchStats where
  total_papers := resp.meta_count.getD 0
  top_papers := (resp.results.take 5).map toTopPaper
  yearly_trends := sortYearAsc (countList (truthyYears resp.results))
  top_institutions := most_common 5 (institutionOccurrences resp.results)
  top_authors := most_common 5 (authorOccurrences resp.results)
  charts := none

/-- Python tuple unpacking of `zip(*pairs)` into two names: with a
non-empty list of pairs it yields the two columns; with an empty list
`zip()` yields nothing and the unpacking raises
`ValueError: not enough values to unpack (expected 2, got 0)`. -/
def unzip2 {α β : Type} : List (α × β) → Except PyError (List α × List β)
  | [] => .error (.valueError ("not enough values to unpack (expected 2, got 0)"))
  | x :: xs => .ok ((x :: xs).unzip)

/-- `create_visualization_charts` (lines 187-242): three charts drawn in
order — trend line, institutions bars, authors bars — each serialized by
the backend `render`; any backend failure propagates as-is, and the
tuple unpacking of an empty top list raises before its chart is drawn.
The returned dict keeps insertion order. -/
def create_visualization_charts (render : String → ChartData → Except PyError String)
    (stats : ResearchStats) : Except PyError (List (String × String)) :=
  match render ("trend")
      (ChartData.line (stats.yearly_trends.map Prod.fst) (stats.yearly_trends.map Prod.snd)) with
  | .error e => .error e
  | .ok trendBlob =>
    match unzip2 stats.top_institutions with
    | .error e => .error e
    | .ok iu =>
      match render ("institutions") (ChartData.hbar iu.1 iu.2) with
      | .error e => .error e
      | .ok instBlob =>
        match unzip2 stats.top_authors with
        | .error e => .error e
        | .ok au =>
          match render ("authors") (ChartData.hbar au.1 au.2) with
          | .error e => .error e
          | .ok authBlob =>
            .ok [("trend", trendBlob), ("institutions", instBlob), ("authors", authBlob)]

/-- `analyze_research_data` (lines 66-111): build the statistics, then
generate the charts and attach them to the dataclass before returning
it.  A failure inside chart generation propagates out of the function. -/
def analyze_research_data (render : String → ChartData → Except PyError String)
    (api_response : ApiResponse) : Except PyError ResearchStats :=
  let stats := computeStats api_response
  match create_visualization_charts render stats with
  | .error e => .error e
  | .ok cs => .ok { stats with charts := some cs }

/-- Digit grouping of Python's `:,` format (groups of three from the
right) applied to a decimal digit string given reversed. -/
def groupThreesRev : List Char → List Char
  | [] => []
  | [a] => [a]
  | [a, b] => [a, b]
  | [a, b, c] => [a, b, c]
  | a :: b :: c :: rest => a :: b :: c :: ',' :: groupThreesRev rest

/-- Python `f"{n:,}"` for a natural number. -/
def commaFmt (n : Nat) : String :=
  String.mk (groupThreesRev (toString n).data.reverse).reverse

/-- Python `str` of an optional year: the default `""` stands in for a
missing `publication_year` (line 76). -/
def yearStr : Option Int → String
  | some y => toString y
  | none => ""

/-- Python `str` of a name that may be `None`: f-string interpolation
prints `None` for a missing value. -/
def optStr : Option String → String
  | some s => s
  | none => "None"

/-- `format_insights` (lines 113-154): the fixed-section text report.
The header literals reproduce the source bytes exactly (the file holds
mojibake, not emoji). -/
def format_insights (stats : ResearchStats) : String :=
  let message :=
    [("ðŸ“Š Market Research Insights"),
     ("\nðŸ” Found ") ++ commaFmt stats.total_papers ++ (" academic papers on this topic"),
     ("\nðŸ“ˆ Research Interest:"),
     ("Year | Number of Papers"),
     ("-----|----------------")]
  let message := message ++ stats.yearly_trends.map (fun yc =>
    toString yc.1 ++ (" | ") ++ toString yc.2)
  let message := message ++
    [("\nðŸ† Top Cited Papers:"),
     ("-------------------")]
  let message := message ++ stats.top_papers.map (fun paper =>
    ("â€¢ ") ++ paper.title ++ ("\n") ++
    ("  Citations: ") ++ commaFmt paper.citations ++ (" | Year: ") ++ yearStr paper.year ++ ("\n") ++
    ("  DOI: ") ++ paper.doi)
  let message := message ++
    [("\nðŸ›ï¸ Leading Institutions:"),
     ("--------------------")]
  let message := message ++ stats.top_institutions.map (fun ic =>
    ("â€¢ ") ++ optStr ic.1 ++ (" (") ++ toString ic.2 ++ (" papers)"))
  let message := message ++
    [("\nðŸ‘¨â€ðŸ”¬ Top Researchers:"),
     ("----------------")]
  let message := message ++ stats.top_authors.map (fun ac =>
    ("â€¢ ") ++ optStr ac.1 ++ (" (") ++ toString ac.2 ++ (" papers)"))
  String.intercalate ("\n") message

/-- The prompt template of `generate_investment_insights` (lines
158-170), with the concept and report text spliced in. -/
def insightPrompt (research_data concept : String) : String :=
  ("As an investment analyst, analyze the following research landscape data for ") ++
  concept ++
  (" and provide strategic investment insights. \n    Focus on:\n    1. Market maturity and growth potential\n    2. Key players and institutional involvement\n    3. Research momentum and emerging trends\n    4. Potential investment opportunities and risks\n    5. Recommendations for investors\n\n    Research Data:\n    ") ++
  research_data ++
  ("\n\n    Provide a concise, actionable analysis for investors considering this space.\n    ")

/-- The fixed system-role message of the completion request. -/
def insightSystemMsg : String :=
  ("You are an expert investment analyst specializing in emerging technology markets.")

/-- `generate_investment_insights` (lines 156-185): one completion call;
any failure is re-raised as
`Exception(f"Azure OpenAI API call failed: {e}")`. -/
def generate_investment_insights (llm : String → String → Except PyError String)
    (research_data concept : String) : Except PyError String :=
  match llm insightSystemMsg (insightPrompt research_data concept) with
  | .ok s => .ok s
  | .error e => .error (.exception (("Azure OpenAI API call failed: ") ++ errMessage e))

/-- The initial LangGraph state for one run: only `concept` is set. -/
def initState (concept : String) : PipelineState :=
  { concept := concept, api_response := none, stats := none,
    result := none, investment_insights := none, charts := none }

/-- The `query` node (lines 263-265). -/
def query_node (env : Env) (st : PipelineState) : Except PyError PipelineState :=
  match query_openalex env.response with
  | .error e => .error e
  | .ok r => .ok { st with api_response := some r }

/-- The `analyze` node (lines 267-269); calling the tool on a `None`
response would raise an `AttributeError`, modelled as an exception. -/
def analyze_node (env : Env) (st : PipelineState) : Except PyError PipelineState :=
  match st.api_response with
  | none => .error (.exception ("AttributeError: NoneType object has no attribute get"))
  | some r =>
    match analyze_research_data env.render r with
    | .error e => .error e
    | .ok stats => .ok { st with stats := some stats, charts := stats.charts }

/-- The `format` node (lines 271-273). -/
def format_node (st : PipelineState) : Except PyError PipelineState :=
  match st.stats with
  | none => .error (.exception ("AttributeError: NoneType object has no attribute total_papers"))
  | some s => .ok { st with result := some (format_insights s) }

/-- The `insights` node (lines 275-277). -/
def insights_node (env : Env) (st : PipelineState) : Except PyError PipelineState :=
  match st.result with
  | none => .error (.exception ("AttributeError: NoneType"))
  | some r =>
    match generate_investment_insights env.llm r st.concept with
    | .error e => .error e
    | .ok i => .ok { st with investment_insights := some i }

/-- The compiled linear graph (lines 279-296): query → analyze → format
→ insights, each stage's first exception aborting the run. -/
def runWorkflow (env : Env) (concept : String) : Except PyError PipelineState :=
  match query_node env (initState concept) with
  | .error e => .error e
  | .ok s1 =>
    match analyze_node env s1 with
    | .error e => .error e
    | .ok s2 =>
      match format_node s2 with
      | .error e => .error e
      | .ok s3 => insights_node env s3

/-- `ResearchBot.run` (lines 298-305): invoke the workflow; on success
return the report, the narrative and the charts, on any exception return
`(f"Error: {e}", "", None)`. -/
def ResearchBot.run (env : Env) (concept : String) :
    String × String × Option (List (String × String)) :=
  match runWorkflow env concept with
  | .ok st => (st.result.getD "", st.investment_insights.getD "", st.charts)
  | .error e => (("Error: ") ++ errMessage e, "", none)

/- Concrete inputs for witnesses and counterexamples ------------------- -/

/-- A backend that renders every chart successfully. -/
def okRender : String → ChartData → Except PyError String :=
  fun _ _ => .ok ("png")

/-- A paper with one authorship carrying one institution and one named
author, used to build small successful payloads. -/
def mkPaper (year : Option Int) (inst author : String) : Paper :=
  { title := some ("T"), cited_by_count := some 3, publication_year := year,
    doi := some ("d"), authorships :=
      [{ author := some { display_name := some author, otherKeys := 0 },
         institutions := [{ display_name := some inst }] }] }

/-- Payload for the C1 witness: one well-formed record. -/
def w1resp : ApiResponse :=
  { results := [mkPaper (some 2021) ("I") ("N")], meta_count := some 7 }

/-- Payload refuting C2 as stated: a single record whose
`publication_year` is present but equal to `0`. -/
def c2resp : ApiResponse :=
  { results := [{ title := some ("Z"), cited_by_count := some 1,
                  publication_year := some 0, doi := none, authorships := [] }],
    meta_count := some 1 }

/-- The distinct defined (present, possibly zero) publication years of a
payload, following the claim's words — for comparison with the
truthiness-based code. -/
def definedYears (resp : ApiResponse) : List Int :=
  (resp.results.filterMap (fun p => p.publication_year)).dedup

/-- Payload for the C2 scenario: three records with years
2020, 2021, 2020. -/
def c2scenario : ApiResponse :=
  { results := [mkPaper (some 2020) ("I1") ("A1"),
                mkPaper (some 2021) ("I2") ("A2"),
                mkPaper (some 2020) ("I3") ("A3")],
    meta_count := some 3 }

/-- Payload for the C3 witness: two institutions and two authors tied at
two occurrences each, A/X always first. -/
def wresp3 : ApiResponse :=
  { results :=
      [{ title := none, cited_by_count := none, publication_year := some 2020,
         doi := none, authorships :=
           [{ author := some { display_name := some ("X"), otherKeys := 0 },
              institutions := [{ display_name := some ("A") }] },
            { author := some { display_name := some ("Y"), otherKeys := 0 },
              institutions := [{ display_name := some ("B") }] }] },
       { title := none, cited_by_count := none, publication_year := some 2021,
         doi := none, authorships :=
           [{ author := some { display_name := some ("X"), otherKeys := 0 },
              institutions := [{ display_name := some ("A") }] },
            { author := some { display_name := some ("Y"), otherKeys := 0 },
              institutions := [{ display_name := some ("B") }] }] }],
    meta_count := some 2 }

/-- Payload for the C4 scenario: one record whose single authorship
lists institutions A and B, one whose single authorship lists A. -/
def c4resp : ApiResponse :=
  { results :=
      [{ title := none, cited_by_count := none, publication_year := none,
         doi := none, authorships :=
           [{ author := none,
              institutions := [{ display_name := some ("A") },
                               { display_name := some ("B") }] }] },
       { title := none, cited_by_count := none, publication_year := none,
         doi := none, authorships :=
           [{ author := none, institutions := [{ display_name := some ("A") }] }] }],
    meta_count := some 2 }

/-- Payload refuting C9 as stated: a single authorship whose author dict
is non-empty (truthy) yet has no `display_name`. -/
def c9resp : ApiResponse :=
  { results :=
      [{ title := none, cited_by_count := none, publication_year := none,
         doi := none, authorships :=
           [{ author := some { display_name := none, otherKeys := 1 },
              institutions := [] }] }],
    meta_count := some 1 }

/-- Payload for the C9 amended-claim witness: one named author. -/
def c9wresp : ApiResponse :=
  { results := [mkPaper (some 2020) ("I") ("X")], meta_count := some 1 }

/-- The empty payload of the C5 scenario: zero records, count zero. -/
def emptyResp : ApiResponse := { results := [], meta_count := some 0 }

/-- A paper whose publication year is present but zero, for the C10
witness. -/
def zeroYearPaper : Paper :=
  { title := none, cited_by_count := none, publication_year := some 0,
    doi := none, authorships := [] }

/-- A backend failing on the institutions chart with a plain exception,
as matplotlib would, for the C8 counterexample. -/
def failInstRender : String → ChartData → Except PyError String :=
  fun c _ => if c = ("institutions") then .error (.exception ("savefig failed")) else .ok ("png")

/-- A backend failing on the trend chart, for the C8 witness. -/
def failTrendRender : String → ChartData → Except PyError String :=
  fun c _ => if c = ("trend") then .error (.exception ("trend boom")) else .ok ("png")

/-- A statistics value with non-empty top lists, for the C8
counterexample. -/
def s0stats : ResearchStats :=
  { total_papers := 1, top_papers := [], yearly_trends := [(2020, 1)],
    top_institutions := [(some ("I"), 1)], top_authors := [(some ("U"), 1)],
    charts := none }

/-- A second such statistics value, for the C8 witness. -/
def s1stats : ResearchStats :=
  { total_papers := 2, top_papers := [], yearly_trends := [(2019, 2)],
    top_institutions := [(some ("J"), 2)], top_authors := [(some ("V"), 2)],
    charts := none }

/-- Does a computation's outcome carry the spec's `RenderError`? -/
def isRenderErr {β : Type} : Except PyError β → Bool
  | .error (.renderError _ _) => true
  | _ => false

/-- Environment with a failing fetch, for the C6 witness. -/
def failFetchEnv : Env :=
  { response := { status := 500, body := emptyResp },
    render := okRender, llm := fun _ _ => .ok ("i") }

/-- The chart dict `okRender` produces. -/
def okCharts : List (String × String) :=
  [("trend", "png"), ("institutions", "png"), ("authors", "png")]

/-- The statistics `analyze_research_data okRender w1resp` returns. -/
def w1stats : ResearchStats :=
  { computeStats w1resp with charts := some okCharts }

/-- The full flatten of every institution display name of every
authorship of every record, the claim's phrasing of what gets counted;
provably equal to `institutionOccurrences` since the truthiness guard on
an empty institution list is a no-op. -/
def allInstitutionNames (results : List Paper) : List (Option String) :=
  results.flatMap (fun p =>
    p.authorships.flatMap (fun a => a.institutions.map (fun i => i.display_name)))

/- Lemmas about the Counter model ------------------------------------- -/

theorem bump_map_fst {α : Type} [DecidableEq α] (x : α) (acc : List (α × Nat)) :
    (bump x acc).map Prod.fst =
      if x ∈ acc.map Prod.fst then acc.map Prod.fst else acc.map Prod.fst ++ [x] := by
  induction acc with
  | nil => simp [bump]
  | cons p ps ih =>
    obtain ⟨y, c⟩ := p
    by_cases h : x = y
    · subst h
      simp [bump]
    · by_cases hm : x ∈ ps.map Prod.fst <;> simp [bump, h, ih, hm]

theorem lookupC_bump {α : Type} [DecidableEq α] (x a : α) (acc : List (α × Nat)) :
    lookupC (bump x acc) a =
      if a = x then some ((lookupC acc a).getD 0 + 1) else lookupC acc a := by
  induction acc with
  | nil => by_cases h : a = x <;> simp [bump, lookupC, h]
  | cons p ps ih =>
    obtain ⟨y, c⟩ := p
    by_cases hxy : x = y
    · subst hxy
      by_cases hax : a = x <;> simp [bump, lookupC, hax]
    · by_cases hay : a = y
      · subst hay
        have hax : a ≠ x := fun h => hxy h.symm
        simp [bump, hxy, lookupC, hax]
      · simp [bump, hxy, lookupC, hay, ih]

theorem lookupC_countFold {α : Type} [DecidableEq α] (l : List α) :
    ∀ (acc : List (α × Nat)) (a : α),
      lookupC (l.foldl (fun acc x => bump x acc) acc) a =
        if l.count a = 0 then lookupC acc a
        else some ((lookupC acc a).getD 0 + l.count a) := by
  induction l with
  | nil => intro acc a; simp
  | cons x xs ih =>
    intro acc a
    simp only [List.foldl_cons]
    rw [ih (bump x acc) a, List.count_cons]
    by_cases hax : a = x
    · subst hax
      by_cases h0 : xs.count a = 0 <;>
        simp [h0, lookupC_bump] <;> omega
    · have : ¬ ((x == a) = true) := by simp [Ne.symm hax]
      by_cases h0 : xs.count a = 0 <;> simp [h0, lookupC_bump, hax, this]

theorem countList_lookup {α : Type} [DecidableEq α] (l : List α) (a : α) :
    lookupC (countList l) a = if l.count a = 0 then none else some (l.count a) := by
  have h := lookupC_countFold l [] a
  simpa [countList, lookupC] using h

theorem countFold_keys_nodup {α : Type} [DecidableEq α] (l : List α) :
    ∀ acc : List (α × Nat), (acc.map Prod.fst).Nodup →
      ((l.foldl (fun acc x => bump x acc) acc).map Prod.fst).Nodup := by
  induction l with
  | nil => intro acc h; simpa using h
  | cons x xs ih =>
    intro acc h
    simp only [List.foldl_cons]
    apply ih
    rw [bump_map_fst]
    by_cases hx : x ∈ acc.map Prod.fst
    · simpa [hx] using h
    · simp only [hx, if_false]
      rw [List.nodup_append]
      refine ⟨h, by simp, ?_⟩
      intro y hy hmem
      simp only [List.mem_singleton] at hmem
      subst hmem
      exact hx hy

theorem countList_keys_nodup {α : Type} [DecidableEq α] (l : List α) :
    ((countList l).map Prod.fst).Nodup := by
  exact countFold_keys_nodup l [] (by simp)

theorem lookupC_eq_some_of_mem {α : Type} [DecidableEq α] :
    ∀ (cl : List (α × Nat)), (cl.map Prod.fst).Nodup →
      ∀ (a : α) (c : Nat), (a, c) ∈ cl → lookupC cl a = some c := by
  intro cl
  induction cl with
  | nil => simp
  | cons p ps ih =>
    obtain ⟨y, d⟩ := p
    intro hn a c hm
    rcases List.mem_cons.mp hm with h | h
    · obtain ⟨rfl, rfl⟩ := Prod.mk.injEq .. ▸ h
      injection h with h1 h2
      simp [lookupC]
    · have hy : a ≠ y := by
        intro he
        subst he
        have hmf : a ∈ ps.map Prod.fst := List.mem_map_of_mem Prod.fst h
        simp only [List.map_cons, List.nodup_cons] at hn
        exact hn.1 hmf
      have hn2 : (ps.map Prod.fst).Nodup := by
        simp only [List.map_cons, List.nodup_cons] at hn
        exact hn.2
      simp [lookupC, hy]
      exact ih hn2 a c h

theorem mem_of_lookupC {α : Type} [DecidableEq α] :
    ∀ (cl : List (α × Nat)) (a : α) (c : Nat), lookupC cl a = some c → (a, c) ∈ cl := by
  intro cl
  induction cl with
  | nil => simp [lookupC]
  | cons p ps ih =>
    obtain ⟨y, d⟩ := p
    intro a c h
    by_cases hay : a = y
    · subst hay
      simp [lookupC] at h
      subst h
      exact List.mem_cons_self ..
    · simp [lookupC, hay] at h
      exact List.mem_cons_of_mem _ (ih a c h)

theorem mem_countList {α : Type} [DecidableEq α] (l : List α) (a : α) (c : Nat) :
    (a, c) ∈ countList l ↔ (a ∈ l ∧ c = l.count a) := by
  constructor
  · intro h
    have hl := lookupC_eq_some_of_mem (countList l) (countList_keys_nodup l) a c h
    rw [countList_lookup] at hl
    by_cases h0 : l.count a = 0
    · simp [h0] at hl
    · simp only [h0, if_false, Option.some.injEq] at hl
      refine ⟨?_, hl.symm⟩
      have : 0 < l.count a := Nat.pos_of_ne_zero h0
      exact List.count_pos_iff.mp this
  · rintro ⟨hm, rfl⟩
    apply mem_of_lookupC
    rw [countList_lookup]
    have h0 : l.count a ≠ 0 := Nat.pos_iff_ne_zero.mp (List.count_pos_iff.mpr hm)
    simp [h0]

theorem mem_firstOccs {α : Type} [DecidableEq α] (l : List α) (a : α) :
    a ∈ firstOccs l ↔ a ∈ l := by
  induction l with
  | nil => simp [firstOccs]
  | cons x xs ih =>
    simp only [firstOccs, List.mem_cons, List.mem_filter, decide_eq_true_eq]
    constructor
    · rintro (rfl | ⟨h, _⟩)
      · exact Or.inl rfl
      · exact Or.inr (ih.mp h)
    · rintro (rfl | h)
      · exact Or.inl rfl
      · by_cases hax : a = x
        · exact Or.inl hax
        · exact Or.inr ⟨ih.mpr h, hax⟩

theorem countFold_map_fst {α : Type} [DecidableEq α] (l : List α) :
    ∀ acc : List (α × Nat),
      (l.foldl (fun acc x => bump x acc) acc).map Prod.fst =
        acc.map Prod.fst ++
          (firstOccs l).filter (fun y => decide (y ∉ acc.map Prod.fst)) := by
  induction l with
  | nil => intro acc; simp [firstOccs]
  | cons x xs ih =>
    intro acc
    simp only [List.foldl_cons, firstOccs]
    rw [ih (bump x acc), bump_map_fst]
    by_cases hx : x ∈ acc.map Prod.fst
    · simp only [hx, if_true, List.filter_cons]
      rw [if_neg (by simp [hx])]
      rw [List.filter_filter]
      congr 1
      apply List.filter_congr
      intro y _
      by_cases hy : y ∈ acc.map Prod.fst
      · simp [hy]
      · have : y ≠ x := fun he => hy (he ▸ hx)
        simp [hy, this]
    · simp only [hx, if_false, List.filter_cons]
      rw [if_pos (by simp [hx])]
      rw [List.append_assoc, List.singleton_append]
      congr 2
      rw [List.filter_filter]
      apply List.filter_congr
      intro y _
      by_cases hyx : y = x
      · subst hyx
        simp
      · by_cases hy : y ∈ acc.map Prod.fst <;> simp [hy, hyx]

theorem countList_map_fst {α : Type} [DecidableEq α] (l : List α) :
    (countList l).map Prod.fst = firstOccs l := by
  have h := countFold_map_fst l []
  simp only [countList] at *
  rw [h]
  simp only [List.map_nil, List.nil_append]
  apply List.filter_eq_self.mpr
  intro y _
  simp

theorem firstOccs_order {α : Type} [DecidableEq α] :
    ∀ (l : List α) (a b : α), a ≠ b → a ∈ l → b ∈ l →
      firstIdx a l < firstIdx b l → List.Sublist [a, b] (firstOccs l) := by
  intro l
  induction l with
  | nil => intro a b _ ha _ _; cases ha
  | cons x xs ih =>
    intro a b hab ha hb hidx
    by_cases hxa : x = a
    · subst hxa
      have hbx : b ∈ xs := by
        rcases List.mem_cons.mp hb with h | h
        · exact absurd h.symm hab
        · exact h
      have hbf : b ∈ (firstOccs xs).filter (fun y => decide (y ≠ x)) := by
        rw [List.mem_filter]
        refine ⟨(mem_firstOccs xs b).mpr hbx, ?_⟩
        simpa using fun h => hab h.symm
      simp only [firstOccs]
      exact List.cons_sublist_cons.mpr (List.singleton_sublist.mpr hbf)
    · by_cases hxb : x = b
      · subst hxb
        have h1 : firstIdx x (x :: xs) = 0 := by simp [firstIdx]
        have h2 : firstIdx a (x :: xs) = firstIdx a xs + 1 := by
          simp [firstIdx, hxa]
        rw [h1, h2] at hidx
        omega
      · have ha2 : a ∈ xs := by
          rcases List.mem_cons.mp ha with h | h
          · exact absurd h.symm hxa
          · exact h
        have hb2 : b ∈ xs := by
          rcases List.mem_cons.mp hb with h | h
          · exact absurd h.symm hxb
          · exact h
        have hidx2 : firstIdx a xs < firstIdx b xs := by
          simp only [firstIdx, hxa, hxb, if_false] at hidx
          omega
        have hsub := ih a b hab ha2 hb2 hidx2
        have heq : List.filter (fun y => decide (y ≠ x)) [a, b] = [a, b] := by
          rw [List.filter_eq_self]
          intro y hy
          rcases List.mem_cons.mp hy with rfl | hy2
          · simpa using fun h => hxa h.symm
          · rw [List.mem_singleton] at hy2
            subst hy2
            simpa using fun h => hxb h.symm
        have hf : List.Sublist (List.filter (fun y => decide (y ≠ x)) [a, b])
            (List.filter (fun y => decide (y ≠ x)) (firstOccs xs)) :=
          List.Sublist.filter _ hsub
        rw [heq] at hf
        simp only [firstOccs]
        exact List.sublist_cons_of_sublist x hf

theorem sublist_pairs_of_keys {α : Type} [DecidableEq α] :
    ∀ (cl : List (α × Nat)), (cl.map Prod.fst).Nodup →
      ∀ (a b : α) (ca cb : Nat), (a, ca) ∈ cl → (b, cb) ∈ cl →
        List.Sublist [a, b] (cl.map Prod.fst) →
        List.Sublist [(a, ca), (b, cb)] cl := by
  intro cl
  induction cl with
  | nil => intro _ a b ca cb hma _ _; cases hma
  | cons p ps ih =>
    intro hn a b ca cb hma hmb hk
    have hab : a ≠ b := by
      intro he
      subst he
      have := List.Sublist.nodup hk hn
      simp at this
    obtain ⟨y, d⟩ := p
    simp only [List.map_cons, List.nodup_cons] at hn
    by_cases hya : y = a
    · subst hya
      have hpa : ((y, ca) : α × Nat) = (y, d) := by
        rcases List.mem_cons.mp hma with h | h
        · exact h
        · exact absurd (List.mem_map_of_mem Prod.fst h) hn.1
      injection hpa with _ hca
      subst hca
      have hbk : b ∈ ps.map Prod.fst := by
        cases hk with
        | cons _ h =>
          have hy : y ∈ ps.map Prod.fst :=
            (List.Sublist.subset h) (List.mem_cons_self ..)
          exact absurd hy hn.1
        | cons₂ _ h => exact List.singleton_sublist.mp h
      have hpb : (b, cb) ∈ ps := by
        rcases List.mem_cons.mp hmb with h | h
        · injection h with h1 _
          exact absurd h1.symm hab
        · exact h
      exact List.cons_sublist_cons.mpr (List.singleton_sublist.mpr hpb)
    · have hpa : (a, ca) ∈ ps := by
        rcases List.mem_cons.mp hma with h | h
        · injection h with h1 _
          exact absurd h1.symm hya
        · exact h
      have hk2 : List.Sublist [a, b] (ps.map Prod.fst) := by
        cases hk with
        | cons _ h => exact h
        | cons₂ _ h => exact absurd rfl hya
      have hpb : (b, cb) ∈ ps := by
        rcases List.mem_cons.mp hmb with h | h
        · injection h with h1 _
          have hbm : b ∈ ps.map Prod.fst :=
            (List.Sublist.subset hk2) (by simp)
          rw [← h1] at hn
          exact absurd hbm hn.1
        · exact h
      exact List.sublist_cons_of_sublist _ (ih hn.2 a b ca cb hpa hpb hk2)

theorem insertDesc_perm {α : Type} (x : α × Nat) (l : List (α × Nat)) :
    List.Perm (insertDesc x l) (x :: l) := by
  induction l with
  | nil => simp [insertDesc]
  | cons y ys ih =>
    by_cases h : y.2 ≤ x.2
    · simp [insertDesc, h]
    · simp only [insertDesc, h, if_false]
      exact List.Perm.trans (List.Perm.cons y ih) (List.Perm.swap x y ys)

theorem sortCountDesc_perm {α : Type} (l : List (α × Nat)) :
    List.Perm (sortCountDesc l) l := by
  induction l with
  | nil => simp [sortCountDesc]
  | cons x xs ih =>
    exact List.Perm.trans (insertDesc_perm x (sortCountDesc xs)) (List.Perm.cons x ih)

theorem filter_insertDesc {α : Type} (x : α × Nat) (l : List (α × Nat)) (c : Nat) :
    (insertDesc x l).filter (fun p => decide (p.2 = c)) =
      if x.2 = c then x :: l.filter (fun p => decide (p.2 = c))
      else l.filter (fun p => decide (p.2 = c)) := by
  induction l with
  | nil => by_cases h : x.2 = c <;> simp [insertDesc, h]
  | cons y ys ih =>
    by_cases hle : y.2 ≤ x.2
    · simp only [insertDesc, hle, if_true, List.filter_cons]
      by_cases hx : x.2 = c <;> by_cases hy : y.2 = c <;> simp [hx, hy]
    · simp only [insertDesc, hle, if_false, List.filter_cons]
      by_cases hy : y.2 = c
      · have hx : ¬ x.2 = c := by omega
        simp [hy, hx, ih]
      · by_cases hx : x.2 = c <;> simp [hy, hx, ih]

theorem filter_sortCountDesc {α : Type} (l : List (α × Nat)) (c : Nat) :
    (sortCountDesc l).filter (fun p => decide (p.2 = c)) =
      l.filter (fun p => decide (p.2 = c)) := by
  induction l with
  | nil => simp [sortCountDesc]
  | cons x xs ih =>
    simp only [sortCountDesc]
    rw [filter_insertDesc, List.filter_cons]
    by_cases hx : x.2 = c <;> simp [hx, ih]

theorem sublist_take_of_mem {β : Type} :
    ∀ (l : List β) (n : Nat) (p q : β), l.Nodup →
      List.Sublist [p, q] l → p ∈ l.take n → q ∈ l.take n →
      List.Sublist [p, q] (l.take n) := by
  intro l
  induction l with
  | nil => intro n p q _ hs _ _; simp at hs
  | cons x xs ih =>
    intro n p q hn hs hp hq
    match n with
    | 0 => simp at hp
    | Nat.succ m =>
      simp only [List.take_succ_cons] at hp hq ⊢
      simp only [List.nodup_cons] at hn
      cases hs with
      | cons _ h =>
        have hpx : p ≠ x := by
          intro he
          subst he
          exact hn.1 ((List.Sublist.subset h) (by simp))
        have hqx : q ≠ x := by
          intro he
          subst he
          exact hn.1 ((List.Sublist.subset h) (by simp))
        have hp2 : p ∈ xs.take m := by
          rcases List.mem_cons.mp hp with he | h2
          · exact absurd he hpx
          · exact h2
        have hq2 : q ∈ xs.take m := by
          rcases List.mem_cons.mp hq with he | h2
          · exact absurd he hqx
          · exact h2
        exact List.sublist_cons_of_sublist x (ih m p q hn.2 h hp2 hq2)
      | cons₂ _ h =>
        have hq2 : q ∈ xs.take m := by
          have hqxs : q ∈ xs := (List.Sublist.subset h) (by simp)
          have hqx : q ≠ x := fun he => hn.1 (he ▸ hqxs)
          rcases List.mem_cons.mp hq with he | h2
          · exact absurd he hqx
          · exact h2
        exact List.cons_sublist_cons.mpr (List.singleton_sublist.mpr hq2)

theorem mem_most_common {α : Type} [DecidableEq α] (n : Nat) (l : List α) (a : α) (c : Nat) :
    (a, c) ∈ most_common n l → a ∈ l ∧ c = l.count a := by
  intro h
  have h2 : (a, c) ∈ sortCountDesc (countList l) := List.take_subset n _ h
  have h3 : (a, c) ∈ countList l :=
    ((sortCountDesc_perm (countList l)).mem_iff).mp h2
  exact (mem_countList l a c).mp h3

theorem most_common_length {α : Type} [DecidableEq α] (n : Nat) (l : List α) :
    (most_common n l).length ≤ n := by
  simp only [most_common]
  rw [List.length_take]
  omega

theorem most_common_stable {α : Type} [DecidableEq α]
    (n : Nat) (l : List α) (a b : α) (c : Nat)
    (hab : a ≠ b)
    (hma : (a, c) ∈ most_common n l) (hmb : (b, c) ∈ most_common n l)
    (hidx : firstIdx a l < firstIdx b l) :
    List.Sublist [(a, c), (b, c)] (most_common n l) := by
  have hac := mem_most_common n l a c hma
  have hbc := mem_most_common n l b c hmb
  have hkeys : List.Sublist [a, b] ((countList l).map Prod.fst) := by
    rw [countList_map_fst]
    exact firstOccs_order l a b hab hac.1 hbc.1 hidx
  have hCa : (a, c) ∈ countList l := (mem_countList l a c).mpr ⟨hac.1, hac.2⟩
  have hCb : (b, c) ∈ countList l := (mem_countList l b c).mpr ⟨hbc.1, hbc.2⟩
  have hpairs : List.Sublist [(a, c), (b, c)] (countList l) :=
    sublist_pairs_of_keys (countList l) (countList_keys_nodup l) a b c c hCa hCb hkeys
  have hfilter : List.filter (fun p => decide (p.2 = c)) [(a, c), (b, c)] =
      [(a, c), (b, c)] := by simp
  have hS : List.Sublist [(a, c), (b, c)] (sortCountDesc (countList l)) := by
    have h1 : List.Sublist (List.filter (fun p => decide (p.2 = c)) [(a, c), (b, c)])
        (List.filter (fun p => decide (p.2 = c)) (countList l)) :=
      List.Sublist.filter _ hpairs
    rw [hfilter, ← filter_sortCountDesc] at h1
    exact List.Sublist.trans h1 (List.filter_sublist _)
  have hnodup : (sortCountDesc (countList l)).Nodup := by
    rw [List.Perm.nodup_iff (sortCountDesc_perm (countList l))]
    exact List.Nodup.of_map Prod.fst (countList_keys_nodup l)
  exact sublist_take_of_mem (sortCountDesc (countList l)) n (a, c) (b, c) hnodup hS hma hmb

theorem insertAsc_perm (x : Int × Nat) (l : List (Int × Nat)) :
    List.Perm (insertAsc x l) (x :: l) := by
  induction l with
  | nil => simp [insertAsc]
  | cons y ys ih =>
    by_cases h : x.1 ≤ y.1
    · simp [insertAsc, h]
    · simp only [insertAsc, h, if_false]
      exact List.Perm.trans (List.Perm.cons y ih) (List.Perm.swap x y ys)

theorem sortYearAsc_perm (l : List (Int × Nat)) :
    List.Perm (sortYearAsc l) l := by
  induction l with
  | nil => simp [sortYearAsc]
  | cons x xs ih =>
    exact List.Perm.trans (insertAsc_perm x (sortYearAsc xs)) (List.Perm.cons x ih)

theorem insertAsc_pairwise (x : Int × Nat) (l : List (Int × Nat))
    (h : l.Pairwise (fun p q => p.1 ≤ q.1)) :
    (insertAsc x l).Pairwise (fun p q => p.1 ≤ q.1) := by
  induction l with
  | nil => simp [insertAsc]
  | cons y ys ih =>
    rcases List.pairwise_cons.mp h with ⟨hy, hys⟩
    by_cases hle : x.1 ≤ y.1
    · simp only [insertAsc, hle, if_true]
      rw [List.pairwise_cons]
      refine ⟨?_, h⟩
      intro z hz
      rcases List.mem_cons.mp hz with rfl | hz2
      · exact hle
      · exact le_trans hle (hy z hz2)
    · simp only [insertAsc, hle, if_false]
      rw [List.pairwise_cons]
      refine ⟨?_, ih hys⟩
      intro z hz
      have hz2 : z = x ∨ z ∈ ys := by
        have hm := (insertAsc_perm x ys).mem_iff.mp hz
        simpa using hm
      rcases hz2 with rfl | hz2
      · omega
      · exact hy z hz2

theorem sortYearAsc_pairwise (l : List (Int × Nat)) :
    (sortYearAsc l).Pairwise (fun p q => p.1 ≤ q.1) := by
  induction l with
  | nil => simp [sortYearAsc]
  | cons x xs ih => exact insertAsc_pairwise x (sortYearAsc xs) ih

theorem sortYearAsc_keys_lt (cl : List (Int × Nat))
    (hn : (cl.map Prod.fst).Nodup) :
    (sortYearAsc cl).Pairwise (fun p q => p.1 < q.1) := by
  have hle := sortYearAsc_pairwise cl
  have hperm := sortYearAsc_perm cl
  have hn2 : ((sortYearAsc cl).map Prod.fst).Nodup := by
    rw [List.Perm.nodup_iff (List.Perm.map Prod.fst hperm)]
    exact hn
  have hne : (sortYearAsc cl).Pairwise (fun p q => p.1 ≠ q.1) :=
    List.pairwise_map.mp hn2
  exact (hle.and hne).imp (fun h => lt_of_le_of_ne h.1 h.2)

theorem truthyYears_count (results : List Paper) (y : Int) (hy : y ≠ 0) :
    (truthyYears results).count y =
      results.countP (fun p => p.publication_year == some y) := by
  induction results with
  | nil => simp [truthyYears]
  | cons p ps ih =>
    simp only [truthyYears, List.filterMap_cons, List.countP_cons]
    cases hpy : p.publication_year with
    | none =>
      simp only [hpy]
      have : ((none : Option Int) == some y) = false := by simp
      simp [truthyYears] at ih
      simp [this, ih]
    | some z =>
      by_cases hz : z = 0
      · subst hz
        simp only [hpy, if_pos rfl]
        have : ((some (0 : Int)) == some y) = false := by
          simp
          omega
        simp [truthyYears] at ih
        simp [this, ih]
      · simp only [hpy, hz, if_neg hz]
        by_cases hzy : z = y
        · subst hzy
          have h1 : ((some z) == some z) = true := by simp
          simp [truthyYears] at ih
          simp [List.count_cons, h1, ih]
        · have h1 : ((some z) == some y) = false := by simp [hzy]
          have h2 : (z == y) = false := by simp [hzy]
          simp [truthyYears] at ih
          simp [List.count_cons, h1, h2, ih]

theorem mem_truthyYears_ne_zero (results : List Paper) (y : Int) :
    y ∈ truthyYears results → y ≠ 0 := by
  intro h
  rcases List.mem_filterMap.mp h with ⟨p, _, hp⟩
  cases hpy : p.publication_year with
  | none => rw [hpy] at hp; cases hp
  | some z =>
    rw [hpy] at hp
    by_cases hz : z = 0
    · simp [hz] at hp
    · simp [hz] at hp
      subst hp
      exact hz

theorem unzip2_error_shape {α β : Type} (l : List (α × β)) (e : PyError)
    (h : unzip2 l = Except.error e) :
    e = PyError.valueError ("not enough values to unpack (expected 2, got 0)") := by
  cases l with
  | nil =>
    simp only [unzip2, Except.error.injEq] at h
    exact h.symm
  | cons x xs => simp [unzip2] at h

theorem analyze_ok_eq (render : String → ChartData → Except PyError String)
    (resp : ApiResponse) (stats : ResearchStats)
    (h : analyze_research_data render resp = Except.ok stats) :
    ∃ cs, create_visualization_charts render (computeStats resp) = Except.ok cs ∧
      stats = { computeStats resp with charts := some cs } := by
  simp only [analyze_research_data] at h
  cases hc : create_visualization_charts render (computeStats resp) with
  | error e =>
    rw [hc] at h
    cases h
  | ok cs =>
    rw [hc] at h
    injection h with h
    exact ⟨cs, rfl, h.symm⟩

theorem institutionOccurrences_eq (results : List Paper) :
    institutionOccurrences results = allInstitutionNames results := by
  have hinner : ∀ ι : List Institution,
      (if ι.isEmpty then [] else ι.map (fun i => i.display_name)) =
        ι.map (fun i => i.display_name) := by
    intro ι
    cases ι <;> simp
  simp only [institutionOccurrences, allInstitutionNames, hinner]

/- The claims ----------------------------------------------------------- -/

/-- C1: for every input payload, whenever `analyze_research_data`
returns statistics, `topPapers`, `topInstitutions` and `topAuthors` are
each at most 5 long. -/
theorem c1_top_lists_bounded (render : String → ChartData → Except PyError String)
    (resp : ApiResponse) (stats : ResearchStats)
    (h : analyze_research_data render resp = Except.ok stats) :
    stats.top_papers.length ≤ 5 ∧ stats.top_institutions.length ≤ 5 ∧
      stats.top_authors.length ≤ 5 := by
  obtain ⟨cs, _, rfl⟩ := analyze_ok_eq render resp stats h
  refine ⟨?_, most_common_length 5 _, most_common_length 5 _⟩
  show ((resp.results.take 5).map toTopPaper).length ≤ 5
  rw [List.length_map, List.length_take]
  omega

/-- Witness for C1: a concrete one-record payload on which aggregation
succeeds, with every bound holding. -/
theorem c1_top_lists_bounded_witness :
    analyze_research_data okRender w1resp = Except.ok w1stats ∧
    w1stats.top_papers.length ≤ 5 ∧ w1stats.top_institutions.length ≤ 5 ∧
      w1stats.top_authors.length ≤ 5 := by
  refine ⟨by rfl, ?_⟩
  exact c1_top_lists_bounded okRender w1resp w1stats (by rfl)

/-- C2 counterexample: a record whose `publication_year` is present but
`0` is a record with a defined year, yet the code's truthiness filter
drops it — the trend's key set is empty while the defined years are
exactly `[0]`. -/
theorem c2_counterexample :
    (computeStats c2resp).yearly_trends = [] ∧
    definedYears c2resp = [0] ∧
    (computeStats c2resp).yearly_trends.map Prod.fst ≠ definedYears c2resp := by
  exact ⟨by rfl, by rfl, by decide⟩

/-- C2 as amended: the key set of `yearlyTrend` is exactly the set of
distinct truthy (present and non-zero) publication years, iterated in
strictly ascending year order, each year mapped to the number of records
bearing it; in particular three records with years 2020, 2021, 2020
yield the trend [(2020, 2), (2021, 1)]. -/
theorem c2_yearly_trend :
    (∀ (resp : ApiResponse) (y : Int) (c : Nat),
        ((y, c) ∈ (computeStats resp).yearly_trends ↔
          (y ≠ 0 ∧ 0 < c ∧
            c = resp.results.countP (fun p => p.publication_year == some y)))) ∧
    (∀ resp : ApiResponse,
        (computeStats resp).yearly_trends.Pairwise (fun p q => p.1 < q.1)) ∧
    (computeStats c2scenario).yearly_trends = [(2020, 2), (2021, 1)] := by
  refine ⟨?_, ?_, by decide⟩
  · intro resp y c
    show (y, c) ∈ sortYearAsc (countList (truthyYears resp.results)) ↔ _
    rw [List.Perm.mem_iff (sortYearAsc_perm _)]
    rw [mem_countList]
    constructor
    · rintro ⟨hm, rfl⟩
      have hy := mem_truthyYears_ne_zero _ y hm
      exact ⟨hy, List.count_pos_iff.mpr hm, truthyYears_count _ y hy⟩
    · rintro ⟨hy, hpos, rfl⟩
      have hcnt := truthyYears_count resp.results y hy
      constructor
      · apply List.count_pos_iff.mp
        rw [hcnt]
        exact hpos
      · exact hcnt.symm
  · intro resp
    show (sortYearAsc (countList (truthyYears resp.results))).Pairwise _
    exact sortYearAsc_keys_lt _ (countList_keys_nodup _)

/-- C3: equal-count ties in `topInstitutions` (and `topAuthors`) are
ranked by order of first appearance in the flattened occurrence
sequence, which follows record order: the earlier first occurrence
comes first in the top list. -/
theorem c3_tie_break (resp : ApiResponse) (a b : Option String) (c : Nat) :
    (a ≠ b →
      (a, c) ∈ (computeStats resp).top_institutions →
      (b, c) ∈ (computeStats resp).top_institutions →
      firstIdx a (institutionOccurrences resp.results) <
        firstIdx b (institutionOccurrences resp.results) →
      List.Sublist [(a, c), (b, c)] (computeStats resp).top_institutions) ∧
    (a ≠ b →
      (a, c) ∈ (computeStats resp).top_authors →
      (b, c) ∈ (computeStats resp).top_authors →
      firstIdx a (authorOccurrences resp.results) <
        firstIdx b (authorOccurrences resp.results) →
      List.Sublist [(a, c), (b, c)] (computeStats resp).top_authors) :=
  ⟨fun hab hma hmb hidx => most_common_stable 5 _ a b c hab hma hmb hidx,
   fun hab hma hmb hidx => most_common_stable 5 _ a b c hab hma hmb hidx⟩

/-- Witness for C3: with two institutions tied at two occurrences each
(and likewise two authors), the first-appearing one ranks first. -/
theorem c3_tie_break_witness :
    List.Sublist [(some ("A"), 2), (some ("B"), 2)] (computeStats wresp3).top_institutions ∧
    List.Sublist [(some ("X"), 2), (some ("Y"), 2)] (computeStats wresp3).top_authors :=
  ⟨(c3_tie_break wresp3 (some ("A")) (some ("B")) 2).1
      (by decide) (by decide) (by decide) (by decide),
   (c3_tie_break wresp3 (some ("X")) (some ("Y")) 2).2
      (by decide) (by decide) (by decide) (by decide)⟩

/-- C4: the occurrence list counted for institutions is the full
flatten — one occurrence per institution name per authorship per record
(the truthiness guard is a no-op), every top count is the multiplicity
in that flatten, and the ["A", "B"] / ["A"] scenario yields
[("A", 2), ("B", 1)]. -/
theorem c4_institution_counting :
    (∀ results : List Paper,
        institutionOccurrences results = allInstitutionNames results) ∧
    (∀ (resp : ApiResponse) (x : Option String) (c : Nat),
        (x, c) ∈ (computeStats resp).top_institutions →
          x ∈ allInstitutionNames resp.results ∧
          c = (allInstitutionNames resp.results).countP (fun yn => decide (yn = x))) ∧
    (computeStats c4resp).top_institutions = [(some ("A"), 2), (some ("B"), 1)] := by
  refine ⟨institutionOccurrences_eq, ?_, by decide⟩
  intro resp x c hm
  have h2 := mem_most_common 5 (institutionOccurrences resp.results) x c hm
  rw [institutionOccurrences_eq] at h2
  exact h2

/-- Witness for C4: the scenario's top entry ("A", 2) is traced to two
flattened occurrences of "A". -/
theorem c4_institution_counting_witness :
    ((some ("A"), 2) ∈ (computeStats c4resp).top_institutions) ∧
    (some ("A") ∈ allInstitutionNames c4resp.results ∧
      2 = (allInstitutionNames c4resp.results).countP (fun yn => decide (yn = some ("A")))) :=
  ⟨by decide, c4_institution_counting.2.1 c4resp (some ("A")) 2 (by decide)⟩

/-- C5: on the empty payload the pure aggregation fields are all empty
and the text report still renders every section header over an empty
body — but `analyze_research_data` itself does not succeed: attaching
charts unpacks `zip(*[])` and raises a `ValueError`, so the claimed
behaviour is the intent the code fails to meet. -/
theorem c5_empty_input :
    analyze_research_data okRender emptyResp =
      Except.error (PyError.valueError ("not enough values to unpack (expected 2, got 0)")) ∧
    (computeStats emptyResp).yearly_trends = [] ∧
    (computeStats emptyResp).top_papers = [] ∧
    (computeStats emptyResp).top_institutions = [] ∧
    (computeStats emptyResp).top_authors = [] ∧
    (computeStats emptyResp).total_papers = 0 ∧
    format_insights (computeStats emptyResp) =
      String.intercalate ("\n")
        [("ðŸ“Š Market Research Insights"),
         ("\nðŸ” Found 0 academic papers on this topic"),
         ("\nðŸ“ˆ Research Interest:"),
         ("Year | Number of Papers"),
         ("-----|----------------"),
         ("\nðŸ† Top Cited Papers:"),
         ("-------------------"),
         ("\nðŸ›ï¸ Leading Institutions:"),
         ("--------------------"),
         ("\nðŸ‘¨â€ðŸ”¬ Top Researchers:"),
         ("----------------")] := by
  exact ⟨rfl, rfl, rfl, rfl, rfl, rfl, rfl⟩

/-- C6: the run is all-or-nothing — any stage error makes
`ResearchBot.run` return the error tuple with empty narrative and no
charts, surfacing the original message; in particular a non-success
fetch status aborts the workflow at the first node. -/
theorem c6_all_or_nothing (env : Env) (concept : String) (e : PyError) :
    (runWorkflow env concept = Except.error e →
      ResearchBot.run env concept = (("Error: ") ++ errMessage e, "", none)) ∧
    (env.response.status ≠ 200 →
      runWorkflow env concept = Except.error (PyError.exception
        (("OpenAlex API request failed with status ") ++ toString env.response.status))) := by
  constructor
  · intro h
    unfold ResearchBot.run
    rw [h]
  · intro h
    unfold runWorkflow query_node query_openalex
    rw [if_pos h]

/-- Witness for C6: a 500-status fetch yields the error tuple with no
statistics, report, charts or narrative. -/
theorem c6_all_or_nothing_witness :
    ResearchBot.run failFetchEnv ("graphene") =
      (("Error: OpenAlex API request failed with status 500"), "", none) := by
  apply (c6_all_or_nothing failFetchEnv ("graphene")
    (PyError.exception ("OpenAlex API request failed with status 500"))).1
  exact (c6_all_or_nothing failFetchEnv ("graphene")
    (PyError.exception ("OpenAlex API request failed with status 500"))).2 (by decide)

/-- C7: `query_openalex` fails with the status-carrying error exactly on
a non-200 status, and on status 200 returns the parsed body unchanged
(no retry — the single response decides the outcome). -/
theorem c7_fetch_status (resp : HttpResponse) :
    (resp.status ≠ 200 →
      query_openalex resp = Except.error (PyError.exception
        (("OpenAlex API request failed with status ") ++ toString resp.status))) ∧
    (resp.status = 200 → query_openalex resp = Except.ok resp.body) := by
  constructor
  · intro h
    unfold query_openalex
    rw [if_pos h]
  · intro h
    unfold query_openalex
    rw [if_neg (fun hne => hne h)]

/-- Witness for C7: status 404 raises with the code in the message,
status 200 returns the body. -/
theorem c7_fetch_status_witness :
    query_openalex { status := 404, body := emptyResp } =
      Except.error (PyError.exception ("OpenAlex API request failed with status 404")) ∧
    query_openalex { status := 200, body := emptyResp } = Except.ok emptyResp :=
  ⟨(c7_fetch_status { status := 404, body := emptyResp }).1 (by decide),
   (c7_fetch_status { status := 200, body := emptyResp }).2 rfl⟩

/-- C8 counterexample: when the backend fails while drawing the
institutions chart, `create_visualization_charts` surfaces the backend's
own exception, not a `RenderError` naming "institutions". -/
theorem c8_counterexample :
    create_visualization_charts failInstRender s0stats =
      Except.error (PyError.exception ("savefig failed")) ∧
    isRenderErr (create_visualization_charts failInstRender s0stats) = false := by
  exact ⟨rfl, rfl⟩

/-- C8 as amended: a chart failure is never silently swallowed — a
failing trend render aborts the whole function with that very error —
and every error the function surfaces is either the empty-top-list
unpacking `ValueError` or exactly an error returned by the backend;
in particular the code never wraps a failure into a `RenderError` of
its own. -/
theorem c8_render_propagation (render : String → ChartData → Except PyError String)
    (stats : ResearchStats) :
    (∀ e, render ("trend") (ChartData.line (stats.yearly_trends.map Prod.fst)
        (stats.yearly_trends.map Prod.snd)) = Except.error e →
      create_visualization_charts render stats = Except.error e) ∧
    (∀ e, create_visualization_charts render stats = Except.error e →
      (e = PyError.valueError ("not enough values to unpack (expected 2, got 0)") ∨
        ∃ cid d, render cid d = Except.error e)) := by
  constructor
  · intro e h
    unfold create_visualization_charts
    rw [h]
  · intro e h
    unfold create_visualization_charts at h
    cases h1 : render ("trend") (ChartData.line (stats.yearly_trends.map Prod.fst)
        (stats.yearly_trends.map Prod.snd)) with
    | error e1 =>
      rw [h1] at h
      injection h with h
      exact Or.inr ⟨_, _, by rw [h1, h]⟩
    | ok b1 =>
      rw [h1] at h
      dsimp only [] at h
      cases h2 : unzip2 stats.top_institutions with
      | error e2 =>
        rw [h2] at h
        injection h with h
        subst h
        exact Or.inl (unzip2_error_shape _ _ h2)
      | ok iu =>
        rw [h2] at h
        dsimp only [] at h
        cases h3 : render ("institutions") (ChartData.hbar iu.1 iu.2) with
        | error e3 =>
          rw [h3] at h
          injection h with h
          exact Or.inr ⟨_, _, by rw [h3, h]⟩
        | ok b2 =>
          rw [h3] at h
          dsimp only [] at h
          cases h4 : unzip2 stats.top_authors with
          | error e4 =>
            rw [h4] at h
            injection h with h
            subst h
            exact Or.inl (unzip2_error_shape _ _ h4)
          | ok au =>
            rw [h4] at h
            dsimp only [] at h
            cases h5 : render ("authors") (ChartData.hbar au.1 au.2) with
            | error e5 =>
              rw [h5] at h
              injection h with h
              exact Or.inr ⟨_, _, by rw [h5, h]⟩
            | ok b3 =>
              rw [h5] at h
              cases h

/-- Witness for C8: a backend failing on the trend chart aborts the
whole render with exactly that error, and the surfaced error indeed
originates from the backend. -/
theorem c8_render_propagation_witness :
    create_visualization_charts failTrendRender s1stats =
      Except.error (PyError.exception ("trend boom")) ∧
    (PyError.exception ("trend boom") =
        PyError.valueError ("not enough values to unpack (expected 2, got 0)") ∨
      ∃ cid d, failTrendRender cid d =
        Except.error (PyError.exception ("trend boom"))) := by
  have h1 := (c8_render_propagation failTrendRender s1stats).1
    (PyError.exception ("trend boom")) (by rfl)
  exact ⟨h1, (c8_render_propagation failTrendRender s1stats).2 _ h1⟩

/-- C9 counterexample: a payload whose only authorship has a truthy
author dict without a `display_name` still contributes an occurrence —
`topAuthors` becomes `[(none, 1)]` although no display name is present
anywhere in the records. -/
theorem c9_counterexample :
    (computeStats c9resp).top_authors = [(none, 1)] ∧
    ((none : Option String), 1) ∈ (computeStats c9resp).top_authors ∧
    (c9resp.results.all (fun p => p.authorships.all (fun a =>
        match a.author with
        | some ao => ao.display_name == none
        | none => true))) = true := by
  exact ⟨by decide, by decide, by decide⟩

/-- C9 as amended: an author occurrence is collected exactly when the
authorship's author object is present and truthy; every element of
`topAuthors` is the `display_name` field of such an object — possibly
`none` when the object lacks one — and its count is the multiplicity in
the flattened author-occurrence list. -/
theorem c9_author_collection (resp : ApiResponse) (x : Option String) (c : Nat)
    (hm : (x, c) ∈ (computeStats resp).top_authors) :
    (∃ p, p ∈ resp.results ∧ ∃ a, a ∈ p.authorships ∧ ∃ ao,
        a.author = some ao ∧ ao.truthy = true ∧ ao.display_name = x) ∧
    c = (authorOccurrences resp.results).countP (fun yn => decide (yn = x)) := by
  have h2 := mem_most_common 5 (authorOccurrences resp.results) x c hm
  refine ⟨?_, h2.2⟩
  rcases List.mem_flatMap.mp h2.1 with ⟨p, hp, hx⟩
  rcases List.mem_filterMap.mp hx with ⟨a, ha, hpick⟩
  cases hao : a.author with
  | none =>
    rw [hao] at hpick
    cases hpick
  | some ao =>
    rw [hao] at hpick
    by_cases ht : ao.truthy = true
    · simp only [ht, if_true, Option.some.injEq] at hpick
      exact ⟨p, hp, a, ha, ao, hao, ht, hpick⟩
    · simp [ht] at hpick

/-- Witness for C9: the named author "X" of a concrete payload is traced
to its truthy author object and counted once. -/
theorem c9_author_collection_witness :
    ((some ("X") : Option String), 1) ∈ (computeStats c9wresp).top_authors ∧
    ((∃ p, p ∈ c9wresp.results ∧ ∃ a, a ∈ p.authorships ∧ ∃ ao,
        a.author = some ao ∧ ao.truthy = true ∧ ao.display_name = some ("X")) ∧
      1 = (authorOccurrences c9wresp.results).countP
        (fun yn => decide (yn = some ("X")))) :=
  ⟨by decide, c9_author_collection c9wresp (some ("X")) 1 (by decide)⟩

/-- C10: a record whose publication year is present but `0` is excluded
from `yearlyTrend` by the truthiness test exactly as if the year were
missing, and `0` never appears as a trend key. -/
theorem c10_zero_year_excluded (resp : ApiResponse) (p : Paper) (c : Nat)
    (h : p.publication_year = some 0) :
    (computeStats { resp with results := resp.results ++ [p] }).yearly_trends =
      (computeStats { resp with
        results := resp.results ++ [{ p with publication_year := none }] }).yearly_trends ∧
    (0, c) ∉ (computeStats { resp with results := resp.results ++ [p] }).yearly_trends := by
  have hyears : truthyYears (resp.results ++ [p]) =
      truthyYears (resp.results ++ [{ p with publication_year := none }]) := by
    simp [truthyYears, List.filterMap_append, h]
  constructor
  · show sortYearAsc (countList (truthyYears _)) = sortYearAsc (countList (truthyYears _))
    rw [hyears]
  · intro hm
    have hm2 : ((0 : Int), c) ∈ countList (truthyYears (resp.results ++ [p])) :=
      (List.Perm.mem_iff (sortYearAsc_perm _)).mp hm
    have h3 := (mem_countList _ _ _).mp hm2
    exact mem_truthyYears_ne_zero _ 0 h3.1 rfl

/-- Witness for C10: appending the zero-year record to the empty payload
leaves the trend identical to appending the year-less version, and the
key `0` is absent. -/
theorem c10_zero_year_excluded_witness :
    ((computeStats { emptyResp with
        results := emptyResp.results ++ [zeroYearPaper] }).yearly_trends =
      (computeStats { emptyResp with
        results := emptyResp.results ++
          [{ zeroYearPaper with publication_year := none }] }).yearly_trends) ∧
    ((0 : Int), 1) ∉ (computeStats { emptyResp with
        results := emptyResp.results ++ [zeroYearPaper] }).yearly_trends :=
  c10_zero_year_excluded emptyResp zeroYearPaper 1 (by rfl)
